import Mathlib

/-
Verification of the mbs synchronization utility (src/mbs/metabase.py)
against its natural-language specification.

The embedding models JSON values as an inductive type, Python dict/list
operations (subscript, `in`, `del`, assignment) as total Lean functions
returning `Except PyErr`, and the stateful operations (pull, merge, push,
the HTTP retry loop) as pure functions over explicit inputs: the local
file tree is a list of (filename, parsed content) pairs, the remote
server is a function from request path to response, and file writes are
returned as events instead of performed.

External collaborators (the `requests` HTTP transport, the jinja2
template engine, `json.loads`) are modelled by their outcomes: a scripted
list of HTTP responses, an `Except` holding the rendering result, and a
parse function parameter, respectively.
-/

namespace Mbs

/-- JSON values, as produced by `json.load`/`json.loads`. Objects keep the
insertion order of their fields, like Python dicts; parsed JSON objects
have pairwise-distinct keys. -/
inductive Json where
  | null
  | bool (b : Bool)
  | num (n : Int)
  | str (s : String)
  | arr (elems : List Json)
  | obj (fields : List (String × Json))

mutual

/-- Deep structural equality of JSON values (Python `==`). -/
def Json.beq : Json → Json → Bool
  | .null, .null => true
  | .bool a, .bool b => a = b
  | .num a, .num b => a = b
  | .str a, .str b => a = b
  | .arr as, .arr bs => Json.beqList as bs
  | .obj as, .obj bs => Json.beqFields as bs
  | _, _ => false

/-- Elementwise equality of JSON arrays. -/
def Json.beqList : List Json → List Json → Bool
  | [], [] => true
  | a :: as, b :: bs => Json.beq a b && Json.beqList as bs
  | _, _ => false

/-- Pairwise equality of JSON object field lists. -/
def Json.beqFields : List (String × Json) → List (String × Json) → Bool
  | [], [] => true
  | (k₁, v₁) :: as, (k₂, v₂) :: bs =>
    (k₁ = k₂ : Bool) && Json.beq v₁ v₂ && Json.beqFields as bs
  | _, _ => false

end

mutual

/-- `Json.beq` decides propositional equality (soundness of the deep
equality test, declared as a `def` so that the decidability instance
below can stay in the definitions part of the file). -/
def Json.beq_iff : ∀ a b : Json, Json.beq a b = true ↔ a = b
  | .null, .null => by simp [Json.beq]
  | .null, .bool _ => by simp [Json.beq]
  | .null, .num _ => by simp [Json.beq]
  | .null, .str _ => by simp [Json.beq]
  | .null, .arr _ => by simp [Json.beq]
  | .null, .obj _ => by simp [Json.beq]
  | .bool _, .null => by simp [Json.beq]
  | .bool _, .bool _ => by simp [Json.beq]
  | .bool _, .num _ => by simp [Json.beq]
  | .bool _, .str _ => by simp [Json.beq]
  | .bool _, .arr _ => by simp [Json.beq]
  | .bool _, .obj _ => by simp [Json.beq]
  | .num _, .null => by simp [Json.beq]
  | .num _, .bool _ => by simp [Json.beq]
  | .num _, .num _ => by simp [Json.beq]
  | .num _, .str _ => by simp [Json.beq]
  | .num _, .arr _ => by simp [Json.beq]
  | .num _, .obj _ => by simp [Json.beq]
  | .str _, .null => by simp [Json.beq]
  | .str _, .bool _ => by simp [Json.beq]
  | .str _, .num _ => by simp [Json.beq]
  | .str _, .str _ => by simp [Json.beq]
  | .str _, .arr _ => by simp [Json.beq]
  | .str _, .obj _ => by simp [Json.beq]
  | .arr _, .null => by simp [Json.beq]
  | .arr _, .bool _ => by simp [Json.beq]
  | .arr _, .num _ => by simp [Json.beq]
  | .arr _, .str _ => by simp [Json.beq]
  | .arr as, .arr bs => by simp [Json.beq, Json.beqList_iff as bs]
  | .arr _, .obj _ => by simp [Json.beq]
  | .obj _, .null => by simp [Json.beq]
  | .obj _, .bool _ => by simp [Json.beq]
  | .obj _, .num _ => by simp [Json.beq]
  | .obj _, .str _ => by simp [Json.beq]
  | .obj _, .arr _ => by simp [Json.beq]
  | .obj as, .obj bs => by simp [Json.beq, Json.beqFields_iff as bs]

/-- `Json.beqList` decides equality of JSON array element lists. -/
def Json.beqList_iff : ∀ as bs : List Json, Json.beqList as bs = true ↔ as = bs
  | [], [] => by simp [Json.beqList]
  | [], _ :: _ => by simp [Json.beqList]
  | _ :: _, [] => by simp [Json.beqList]
  | a :: as, b :: bs => by
    simp [Json.beqList, Json.beq_iff a b, Json.beqList_iff as bs]

/-- `Json.beqFields` decides equality of JSON object field lists. -/
def Json.beqFields_iff :
    ∀ as bs : List (String × Json), Json.beqFields as bs = true ↔ as = bs
  | [], [] => by simp [Json.beqFields]
  | [], _ :: _ => by simp [Json.beqFields]
  | _ :: _, [] => by simp [Json.beqFields]
  | (k₁, v₁) :: as, (k₂, v₂) :: bs => by
    simp [Json.beqFields, Json.beq_iff v₁ v₂, Json.beqFields_iff as bs, and_assoc]

end

instance : DecidableEq Json := fun a b => decidable_of_iff _ (Json.beq_iff a b)

/-- Python exception outcomes relevant to this program. `mbs` is the
non-critical `MbsException`, `mbsFatal` the critical `MbsFatalException`
(metabase.py lines 32-41); `keyError`, `typeError` and `indexError` are
the built-in Python exceptions, which none of the modelled code catches
(except the single `try/del` block in `__write_card`, modelled explicitly
below); `jsonDecode` is an uncaught `json.JSONDecodeError`. -/
inductive PyErr where
  | mbs (msg : String)
  | mbsFatal (msg : String)
  | keyError (key : String)
  | typeError
  | indexError
  | jsonDecode
deriving DecidableEq

/-- Log records emitted via `logger.info` / `logger.warning` / `logger.error`. -/
inductive LogEv where
  | info (msg : String)
  | warning (msg : String)
  | err (msg : String)
deriving DecidableEq

/-- Does `pat` occur at the start of `s`? (helper for substring search). -/
def matchAt : List Char → List Char → Bool
  | [], _ => true
  | _ :: _, [] => false
  | p :: ps, c :: cs => p = c && matchAt ps cs

/-- Does `pat` occur anywhere in `s`? (helper for substring search). -/
def hasSubList (pat : List Char) : List Char → Bool
  | [] => matchAt pat []
  | c :: cs => matchAt pat (c :: cs) || hasSubList pat cs

/-- Python's `pat in s` on strings: substring containment. -/
def strContains (s pat : String) : Bool :=
  hasSubList pat.toList s.toList

/-- The ownership tag (metabase.py line 52). -/
def mbs_tag : String := "## mbs_controlled ##"

/-- Key membership in a JSON object (`k in card` for a dict). False on
non-objects (used only where the code guarantees a dict). -/
def Json.hasKey (j : Json) (k : String) : Bool :=
  match j with
  | .obj fs => fs.any (fun p => p.1 = k)
  | _ => false

/-- First binding of key `k` (parsed JSON objects have distinct keys). -/
def Json.get? (j : Json) (k : String) : Option Json :=
  match j with
  | .obj fs => (fs.find? (fun p => p.1 = k)).map Prod.snd
  | _ => none

/-- Python subscript `j[k]` with a string key: value on a dict hit,
`KeyError` on a dict miss, `TypeError` on anything that is not a dict. -/
def Json.getItem (j : Json) (k : String) : Except PyErr Json :=
  match j with
  | .obj fs =>
    match fs.find? (fun p => p.1 = k) with
    | some p => .ok p.2
    | none => .error (.keyError k)
  | _ => .error .typeError

/-- Python `del j[k]` on a dict: removes the binding (caller checks for
presence; on a non-object the value is returned unchanged, the modelled
code only deletes from dicts). -/
def Json.delKey (j : Json) (k : String) : Json :=
  match j with
  | .obj fs => .obj (fs.filter (fun p => ¬ p.1 = k))
  | _ => j

/-- Python `j[k] = v` on a dict: overwrite in place if the key exists,
append otherwise (insertion-order semantics of Python dicts). -/
def Json.setKey (j : Json) (k : String) (v : Json) : Json :=
  match j with
  | .obj fs =>
    if fs.any (fun p => p.1 = k) then
      .obj (fs.map (fun p => if p.1 = k then (p.1, v) else p))
    else
      .obj (fs ++ [(k, v)])
  | _ => j

/-- Python `x in j` with a string `x`: key membership for dicts, element
membership for lists, substring for strings, `TypeError` otherwise. -/
def pyContains (k : String) : Json → Except PyErr Bool
  | .obj fs => .ok ((Json.obj fs).hasKey k)
  | .arr xs => .ok (xs.any (fun x => Json.beq x (.str k)))
  | .str s => .ok (strContains s k)
  | _ => .error .typeError

/-- Python truthiness of a JSON value (`if j:`). -/
def Json.truthy (j : Json) : Bool :=
  match j with
  | .null => false
  | .bool b => b
  | .num n => decide (n ≠ 0)
  | .str s => decide (s ≠ "")
  | .arr xs => !xs.isEmpty
  | .obj fs => !fs.isEmpty

/-- Python `str()` / f-string formatting of a JSON scalar (the code only
formats ids and names, which are numbers or strings; container reprs are
abbreviated and never reached by the claims). -/
def Json.pyString (j : Json) : String :=
  match j with
  | .str s => s
  | .num n => toString n
  | .bool b => if b then "True" else "False"
  | .null => "None"
  | .arr _ => "[...]"
  | .obj _ => "\x7b...\x7d"

/-- Python `url.strip("/")`: removes the character from BOTH ends
(metabase.py line 58). -/
def stripSlashes (s : String) : String :=
  String.mk (((s.toList.dropWhile (fun c => c = '/')).reverse.dropWhile
    (fun c => c = '/')).reverse)

/-- `Metabase.__init__` with `init_url` set (metabase.py lines 56-64):
fatal if the `.mbs` marker already exists, otherwise the JSON object
written to the marker file. -/
def initRepo (markerExists : Bool) (init_url : String) : Except PyErr Json :=
  if markerExists then
    .error (.mbsFatal "There is already an mbs repo in this folder.")
  else
    .ok (.obj [("url", .str (stripSlashes init_url))])

/-- Message of the fatal error raised by the `remotes` property when the
credential file does not exist (metabase.py line 83). -/
def notLoggedInMsg : String :=
  "You are currently not logged in. Use \"mbs login\" with your credentials"

/-- The `remotes` property (metabase.py lines 77-83). `remotesFile` is the
parsed content of the per-user `remotes.json`, or `none` when the file
does not exist. -/
def remotesProp (remotesFile : Option Json) : Except PyErr Json :=
  match remotesFile with
  | some j => .ok j
  | none => .error (.mbsFatal notLoggedInMsg)

/-- The `username` property (metabase.py lines 92-97):
`self.remotes[self.config["url"]]["username"]` when the remotes mapping is
truthy, Python `False` otherwise. -/
def usernameProp (remotesFile : Option Json) (url : String) : Except PyErr Json := do
  let r ← remotesProp remotesFile
  if r.truthy then do
    let record ← r.getItem url
    record.getItem "username"
  else
    return .bool false

/-- The `password` property (metabase.py lines 99-104). -/
def passwordProp (remotesFile : Option Json) (url : String) : Except PyErr Json := do
  let r ← remotesProp remotesFile
  if r.truthy then do
    let record ← r.getItem url
    record.getItem "password"
  else
    return .bool false

/-- Message of the fatal error raised by `renew_session` when no
credentials are saved (metabase.py lines 141-142). -/
def renewFatalMsg : String :=
  "Can't renew session, because you haven't saved your credentials. Please use \"mbs login --dont-save-credentials <username> <password>\" again."

/-- The action `renew_session` takes on success: a `login` call with the
stored username and password. -/
inductive RenewAction where
  | loginWith (username password : Json)
deriving DecidableEq

/-- `Metabase.renew_session` (metabase.py lines 137-142): reads the
`username` property, and if it is truthy also the `password` property;
calls `login` when both are truthy, otherwise raises the fatal
"log in again" error. -/
def renew_session (remotesFile : Option Json) (url : String) :
    Except PyErr RenewAction := do
  let u ← usernameProp remotesFile url
  if u.truthy then do
    let p ← passwordProp remotesFile url
    if p.truthy then
      return .loginWith u p
    else
      throw (.mbsFatal renewFatalMsg)
  else
    throw (.mbsFatal renewFatalMsg)

/-- One HTTP response of the scripted server: status code, body text
(`req.text`) and body parsed as JSON (`req.json()`). -/
structure HttpResp where
  status : Nat
  text : String
  body : Json
deriving DecidableEq

/-- Outcome of a `_get`/`_put` call against a finite response script.
`pending` means the script was exhausted with the client still retrying
(the code puts no bound on the number of retries). -/
inductive ReqOutcome where
  | success (body : Json)
  | failure (e : PyErr)
  | pending
deriving DecidableEq

/-- `Metabase._get` (metabase.py lines 106-119) run against a scripted
list of responses, one per attempted request. `renew` is the outcome of
`renew_session` (constant across attempts: the stored credentials do not
change). Returns the outcome together with the number of requests made.
A non-200 status with body exactly "Unauthenticated" triggers
re-authentication and an unconditional recursive retry; any other
non-200 response is a fatal error carrying the body text. -/
def getLoop (renew : Except PyErr Unit) : List HttpResp → ReqOutcome × Nat
  | [] => (.pending, 0)
  | r :: rest =>
    if r.status = 200 then
      (.success r.body, 1)
    else if r.text = "Unauthenticated" then
      match renew with
      | .error e => (.failure e, 1)
      | .ok _ =>
        let t := getLoop renew rest
        (t.1, t.2 + 1)
    else
      (.failure (.mbsFatal ("Error: " ++ r.text)), 1)

/-- `Metabase._put` (metabase.py lines 121-135): same retry structure as
`_get`, but statuses 200 and 202 count as success. -/
def putLoop (renew : Except PyErr Unit) : List HttpResp → ReqOutcome × Nat
  | [] => (.pending, 0)
  | r :: rest =>
    if r.status = 200 ∨ r.status = 202 then
      (.success r.body, 1)
    else if r.text = "Unauthenticated" then
      match renew with
      | .error e => (.failure e, 1)
      | .ok _ =>
        let t := putLoop renew rest
        (t.1, t.2 + 1)
    else
      (.failure (.mbsFatal ("Error: " ++ r.text)), 1)

/-- The server-managed fields deleted by `__write_card`, in the
deletion order of metabase.py lines 232-243. -/
def managedFields : List String :=
  ["created_at", "creator", "creator_id", "last-edit-info", "made_public_by_id",
   "public_uuid", "updated_at", "embedding_params", "enable_embedding",
   "average_query_time", "last_query_start", "moderation_reviews"]

/-- The `try: del ... except KeyError: pass` block of `__write_card`
(metabase.py lines 231-245): fields are deleted in order until the first
absent one raises `KeyError`, which is caught and ABORTS the remaining
deletions. -/
def delUpTo : Json → List String → Json
  | card, [] => card
  | card, k :: ks => if card.hasKey k then delUpTo (card.delKey k) ks else card

/-- Title sanitization (metabase.py line 226): keep alphanumerics, space,
dot, underscore, hyphen; strip trailing whitespace; truncate to 256. -/
def sanitizeTitle (name : String) : String :=
  String.mk ((((name.toList.filter (fun c =>
    c.isAlphanum || c = ' ' || c = '.' || c = '_' || c = '-')).reverse.dropWhile
    (fun c => c.isWhitespace)).reverse).take 256)

/-- Default filename `f"{card['id']} - {title}.json"` (metabase.py line 228). -/
def targetFilename (idv : Json) (name : String) : String :=
  idv.pyString ++ " - " ++ sanitizeTitle name ++ ".json"

/-- Result of `__write_card`: either a file write (with the content that
is serialized) or the "already exists" warning of metabase.py line 252. -/
inductive WriteRes where
  | wrote (filename : String) (content : Json)
  | warnedExists (filename : String)
deriving DecidableEq

/-- `Metabase.__write_card` (metabase.py lines 224-253). `existingNames`
are the filenames currently present on disk. Accesses `card["id"]` and
`card["name"]` (for the log line and the title) before anything else;
writes `delUpTo card managedFields` unless the target file exists and
`overwrite` is not set. -/
def write_card (existingNames : List String) (card : Json) (overwrite : Bool)
    (filename₀ : String) : Except PyErr WriteRes := do
  let idv ← card.getItem "id"
  let namev ← card.getItem "name"
  let nameStr ← (match namev with
    | .str s => pure s
    | _ => throw PyErr.typeError)
  let filename := if filename₀ = "" then targetFilename idv nameStr else filename₀
  if ¬ existingNames.contains filename ∨ overwrite then
    return .wrote filename (delUpTo card managedFields)
  else
    return .warnedExists filename

/-- The id scan at the start of `pull` (metabase.py lines 178-183): for
every local JSON file, if `"id" in card` then collect `card["id"]`. -/
def existing_ids (files : List (String × Json)) : Except PyErr (List Json) :=
  files.foldlM (fun acc f => do
    let has ← pyContains "id" f.2
    if has then do
      let idv ← f.2.getItem "id"
      return acc ++ [idv]
    else
      return acc) []

/-- The per-card ownership-tag condition of the full-list pull
(metabase.py lines 195-196):
`("native" in card["dataset_query"] and mbs_tag in
card["dataset_query"]["native"]["query"]) or
(isinstance(card["description"], str) and mbs_tag in card["description"])`,
with Python's left-to-right short-circuit evaluation. -/
def tagCond (card : Json) : Except PyErr Bool := do
  let dq ← card.getItem "dataset_query"
  let hasNative ← pyContains "native" dq
  let left ←
    (if hasNative then do
      let dq₂ ← card.getItem "dataset_query"
      let nat ← dq₂.getItem "native"
      let q ← nat.getItem "query"
      pyContains mbs_tag q
    else
      pure false)
  if left then
    return true
  else do
    let desc ← card.getItem "description"
    match desc with
    | .str s => return (strContains s mbs_tag)
    | _ => return false

/-- Observable events of a pull: the info-level skip of metabase.py
line 193, a file write, or the warning-level skip of line 252. -/
inductive PullEv where
  | skippedInfo (idv : Json)
  | wrote (filename : String) (content : Json)
  | warnedExists (filename : String)
deriving DecidableEq

/-- The body of the `for card in cards` loop of the full-list pull
(metabase.py lines 191-198), threading the emitted events and the set of
filenames on disk (writes during the loop are visible to later isfile
checks). -/
def pullStep (ids : List Json) (overwrite : Bool)
    (acc : List PullEv × List String) (card : Json) :
    Except PyErr (List PullEv × List String) := do
  let idv ← card.getItem "id"
  if ids.any (fun x => Json.beq x idv) then
    return (acc.1 ++ [.skippedInfo idv], acc.2)
  else do
    let cond ← tagCond card
    if cond then do
      match ← write_card acc.2 card overwrite "" with
      | .wrote fn content => return (acc.1 ++ [.wrote fn content], acc.2 ++ [fn])
      | .warnedExists fn => return (acc.1 ++ [.warnedExists fn], acc.2)
    else
      return (acc.1, acc.2)

/-- `Metabase.pull` (metabase.py lines 177-199). `server` maps a request
path to the JSON the remote returns for it; `files` is the local tree of
(filename, parsed JSON) pairs; `card_id` is the integer CLI argument
whose Python truthiness (≠ 0) selects the single-card branch. -/
def pull (server : String → Json) (files : List (String × Json))
    (card_id : Int) (overwrite : Bool) : Except PyErr (List PullEv) := do
  let ids ← existing_ids files
  let names := files.map Prod.fst
  if card_id ≠ 0 then do
    let card := server ("/api/card/" ++ toString card_id)
    match ← write_card names card overwrite "" with
    | .wrote fn content => return [.wrote fn content]
    | .warnedExists fn => return [.warnedExists fn]
  else
    match server "/api/card" with
    | .arr cards => do
      let r ← cards.foldlM (pullStep ids overwrite) ([], names)
      return r.1
    | _ => throw .typeError

/-- `card["dataset_query"]["native"]["query"]` (right-hand side of
metabase.py line 215). -/
def getNativeQuery (card : Json) : Except PyErr Json := do
  let dq ← card.getItem "dataset_query"
  let nat ← dq.getItem "native"
  nat.getItem "query"

/-- `updated_card["dataset_query"]["native"]["query"] = q` (left-hand
side of metabase.py line 215): look up the nested dicts (KeyError if
absent) and store `q` under `"query"`. -/
def setNativeQuery (card : Json) (q : Json) : Except PyErr Json := do
  let dq ← card.getItem "dataset_query"
  let nat ← dq.getItem "native"
  return card.setKey "dataset_query" (dq.setKey "native" (nat.setKey "query" q))

/-- Observable events of a merge: a file write, the unreachable
"already exists" warning (overwrite is forced), the non-native warning of
metabase.py line 218, and the error logs of lines 220 and 222. -/
inductive MergeEv where
  | wrote (filename : String) (content : Json)
  | warnedExistsFile (filename : String)
  | warnedNonNative (filename : String)
  | erroredNoId (filename : String)
  | erroredNotFound (filename : String)
deriving DecidableEq

/-- `Metabase.__merge_file` (metabase.py lines 208-222). `server` maps a
request path to the fetched JSON; `onDisk` is `os.path.isfile(filename)`;
`card` is the parsed content of the local file. -/
def merge_file (server : String → Json) (onDisk : Bool) (card : Json)
    (filename : String) : Except PyErr (List MergeEv) := do
  if onDisk then do
    let hasId ← pyContains "id" card
    if hasId then do
      let idv ← card.getItem "id"
      let updated := server ("/api/card/" ++ idv.pyString)
      let qt ← card.getItem "query_type"
      if qt = Json.str "native" then do
        let qt₂ ← updated.getItem "query_type"
        if qt₂ = Json.str "native" then do
          let q ← getNativeQuery card
          let merged ← setNativeQuery updated q
          match ← write_card [] merged true filename with
          | .wrote fn content => return [.wrote fn content]
          | .warnedExists fn => return [.warnedExistsFile fn]
        else
          return [.warnedNonNative filename]
      else
        return [.warnedNonNative filename]
    else
      return [.erroredNoId filename]
  else
    return [.erroredNotFound filename]

/-- `Metabase.merge` with no filename argument (metabase.py lines
201-206): process every local JSON file in order; an uncaught exception
from one file aborts the remaining batch. -/
def merge (server : String → Json) (files : List (String × Json)) :
    Except PyErr (List MergeEv) :=
  files.foldlM (fun acc f => do
    let evs ← merge_file server true f.2 f.1
    return acc ++ evs) []

/-- Message of the non-fatal error raised by `render` when the ownership
tag is missing from the output (metabase.py lines 305-307). -/
def tagNotFoundMsg : String :=
  "MBS tag (\"" ++ mbs_tag ++ "\") not found in the output! Mark this question/card as controlled by MBS, to avoid confusions with online editors."

/-- `Metabase.render` (metabase.py lines 281-308). The jinja2 engine is
external; `templateResult` is its outcome (`.error` = TemplateSyntaxError,
`.ok output` = the rendered text). A syntax error is fatal; an output
without the ownership tag raises the non-fatal `MbsException`. -/
def render (templateResult : Except String String) : Except PyErr String :=
  match templateResult with
  | .error _ => .error (.mbsFatal "Couldn't render template.")
  | .ok output =>
    if strContains output mbs_tag then .ok output
    else .error (.mbs tagNotFoundMsg)

/-- Log line for a missing `id` (metabase.py line 327). -/
def errNoId : LogEv := .err "There is no id set in your data."

/-- Log line for a missing `name` (metabase.py line 330). -/
def errNoName : LogEv := .err "There is no name set in your data."

/-- The `json.JSONDecodeError` raised by the external `json.loads`: its
1-based line number (`lineno`, always at least 1 in CPython) and its
message, the two attributes the handler in `check` reads. -/
structure JsonDecodeError where
  lineno : Nat
  msg : String
deriving DecidableEq

/-- Helper for `pySplitlines`: accumulates the current line (reversed)
while walking the input; a final segment is a line only when nonempty
(no line after a trailing newline, no line in the empty string). -/
def pySplitlinesAux : List Char → List Char → List String
  | cur, [] => if cur.isEmpty then [] else [String.mk cur.reverse]
  | cur, c :: cs =>
    if c = '\n' then String.mk cur.reverse :: pySplitlinesAux [] cs
    else pySplitlinesAux (c :: cur) cs

/-- Python `str.splitlines()` for text whose line boundaries are `\n`
(the only boundary the modelled inputs contain): "a\nb" has lines
["a", "b"], a trailing newline produces no trailing empty line, and the
empty string has no lines at all. -/
def pySplitlines (s : String) : List String :=
  pySplitlinesAux [] s.toList

/-- The first two log lines of the JSON-decode failure path of `check`
(metabase.py lines 321-323), emitted before the handler subscripts the
input's lines. -/
def decodeLogs (e : JsonDecodeError) : List LogEv :=
  [.err "JSON decode error while checking this output:",
   .err ("Render error: Line " ++ toString e.lineno ++ " - " ++ e.msg)]

/-- The field checks of `Metabase.check` after parsing (metabase.py lines
326-335): test `"id" not in card` and `"name" not in card`, log each
missing field, raise the fatal "Data invalid." if either is missing,
return True otherwise. -/
def checkCard (card : Json) : List LogEv × Except PyErr Bool :=
  match pyContains "id" card, pyContains "name" card with
  | .error e, _ => ([], .error e)
  | .ok hid, .error e => ((if hid then [] else [errNoId]), .error e)
  | .ok hid, .ok hname =>
    ((if hid then [] else [errNoId]) ++ (if hname then [] else [errNoName]),
     if !hid || !hname then .error (.mbsFatal "Data invalid.") else .ok true)

/-- `Metabase.check` (metabase.py lines 310-335). `loads` is the external
`json.loads`, modelled by its outcome: a parsed value or a
`JSONDecodeError`. On a decode failure the handler logs two lines, then
evaluates `data.splitlines()[e.lineno - 1]` for the third log line BEFORE
raising: when `lineno - 1` is outside the input's lines (empty input, or
an error position past the last newline) that subscript raises an
uncaught `IndexError` and the non-fatal "JSON invalid." is never
reached. -/
def check (loads : String → Except JsonDecodeError Json) (data : String ⊕ Json) :
    List LogEv × Except PyErr Bool :=
  match data with
  | .inl s =>
    match loads s with
    | .error e =>
      match (pySplitlines s).get? (e.lineno - 1) with
      | some line =>
        (decodeLogs e ++ [.err ("Line with the error > " ++ line)],
         .error (.mbs "JSON invalid."))
      | none => (decodeLogs e, .error .indexError)
    | .ok card => checkCard card
  | .inr card => checkCard card

/-- The card `check` works on: the parse of a string input (when it
succeeds), or a dict input as is. -/
def parsedCard (loads : String → Except JsonDecodeError Json)
    (data : String ⊕ Json) : Option Json :=
  match data with
  | .inl s => (loads s).toOption
  | .inr card => some card

/-- Observable server effect of a push: the PUT request of metabase.py
line 268. -/
inductive PushEv where
  | put (path : String) (body : Json)
deriving DecidableEq

/-- The single-file upload branch of `Metabase.push` (metabase.py lines
263-268): render, check, and on success PUT the parsed card to
`/api/card/{card['id']}`. -/
def pushFile (loads : String → Except JsonDecodeError Json)
    (templateResult : Except String String) : Except PyErr (List PushEv) := do
  let output ← render templateResult
  match (check loads (.inl output)).2 with
  | .error e => throw e
  | .ok _ =>
    match loads output with
    | .ok card => do
      let idv ← card.getItem "id"
      return [.put ("/api/card/" ++ idv.pyString) card]
    | .error _ => throw .jsonDecode

/-- A non-success response whose body is exactly "Unauthenticated". -/
def unauthResp : HttpResp := ⟨401, "Unauthenticated", .null⟩

/-- A card that lacks `created_at` (the first field in the deletion
order) but carries `updated_at` (a later one). -/
def c4card : Json :=
  .obj [("id", .num 1), ("name", .str "x"), ("updated_at", .str "2022")]

/-- A credential file as written by `login` with
`dont_save_credentials=True`: the record for the URL holds only the
session token, no username or password. -/
def c8remotesFile : Json :=
  .obj [("http://mb", .obj [("session", .str "tok")])]

/-- A local tree where the card with id 5 is stored under a filename that
is not the default target filename for that card. -/
def c6files : List (String × Json) :=
  [("renamed.json", .obj [("id", .num 5), ("name", .str "Old")])]

/-- The remote card with id 5 as the server returns it. -/
def c6card : Json := .obj [("id", .num 5), ("name", .str "T")]

/-- A local native-query card file content for merge. -/
def c5local : Json :=
  .obj [("id", .num 1), ("query_type", .str "native"),
    ("dataset_query", .obj [("native", .obj [("query", .str "NEW ## mbs_controlled ##")])])]

/-- The corresponding remote card, carrying the server-managed field
`created_at`. -/
def c5remote : Json :=
  .obj [("id", .num 1), ("name", .str "n"), ("query_type", .str "native"),
    ("created_at", .str "2022-01-01"),
    ("dataset_query", .obj [("native", .obj [("query", .str "OLD")])])]

/-- What merge actually writes for `c5local`/`c5remote`: the remote card
with the local query text AND `created_at` stripped by the write path. -/
def c5written : Json :=
  .obj [("id", .num 1), ("name", .str "n"), ("query_type", .str "native"),
    ("dataset_query", .obj [("native", .obj [("query", .str "NEW ## mbs_controlled ##")])])]

/-- What the claim says merge writes for `c5local`/`c5remote`: the remote
card changed only in its native query text (`created_at` kept). -/
def c5expected : Json :=
  .obj [("id", .num 1), ("name", .str "n"), ("query_type", .str "native"),
    ("created_at", .str "2022-01-01"),
    ("dataset_query", .obj [("native", .obj [("query", .str "NEW ## mbs_controlled ##")])])]

/-- A server card with the optional `dataset_query` field absent. -/
def c9card : Json := .obj [("id", .num 1), ("name", .str "x")]

/-- The outcome of the real `json.loads` on the empty string: a
`JSONDecodeError` with `lineno = 1` and this message (CPython). -/
def c3loads : String → Except JsonDecodeError Json :=
  fun _ => .error ⟨1, "Expecting value: line 1 column 1 (char 0)"⟩

theorem exc_bind_ok {ε α β : Type} (a : α) (f : α → Except ε β) :
    (Except.ok a >>= f) = f a := rfl

theorem exc_bind_err {ε α β : Type} (e : ε) (f : α → Except ε β) :
    ((Except.error e : Except ε α) >>= f) = .error e := rfl

theorem exc_pure {ε α : Type} (a : α) : (pure a : Except ε α) = .ok a := rfl

theorem exc_throw {ε α : Type} (e : ε) : (throw e : Except ε α) = .error e := rfl

/-- A successful dict subscript implies key membership. -/
theorem hasKey_obj_of_getItem {fs : List (String × Json)} {k : String} {v : Json}
    (h : (Json.obj fs).getItem k = .ok v) : (Json.obj fs).hasKey k = true := by
  simp only [Json.getItem] at h
  split at h
  next p hf =>
    have hmem := List.mem_of_find?_eq_some hf
    have hp := List.find?_some hf
    simp only [Json.hasKey, List.any_eq_true]
    exact ⟨p, hmem, hp⟩
  next => cases h

/-- A dict subscript with an absent key raises `KeyError`. -/
theorem getItem_obj_of_not_hasKey {fs : List (String × Json)} {k : String}
    (h : (Json.obj fs).hasKey k = false) :
    (Json.obj fs).getItem k = .error (.keyError k) := by
  simp only [Json.getItem]
  have hf : List.find? (fun p => decide (p.1 = k)) fs = none := by
    rw [List.find?_eq_none]
    intro p hp
    simp only [Json.hasKey, List.any_eq_false] at h
    exact h p hp
  rw [hf]

/-- Claim C7 (code_bug): `init` is correct about the marker-exists case,
but `url.strip("/")` removes leading slashes as well; on the input
"/example/" the stored url is "example", while trimming only the trailing
slash(es) — as the claim and the code's own comment "strip trailing
slashes" state — would store "/example". -/
theorem C7_leading_slashes_also_stripped :
    (∀ url : String, initRepo true url
       = .error (.mbsFatal "There is already an mbs repo in this folder."))
    ∧ initRepo false "http://host/" = .ok (.obj [("url", .str "http://host")])
    ∧ initRepo false "/example/" = .ok (.obj [("url", .str "example")])
    ∧ "example" ≠ "/example" :=
  ⟨fun _ => rfl, rfl, rfl, by decide⟩

/-- Claim C8 (code_bug): with a credential record that holds only a
session token (saved by `login --dont-save-credentials`), the `username`
property evaluates `remotes[url]["username"]` and raises `KeyError`
before it can return `False`, so `renew_session` surfaces a `KeyError`
instead of the intended fatal "log in again" error. -/
theorem C8_renew_raises_keyerror :
    renew_session (some c8remotesFile) "http://mb" = .error (.keyError "username")
    ∧ usernameProp (some c8remotesFile) "http://mb" = .error (.keyError "username")
    ∧ ∀ msg, (Except.error (PyErr.keyError "username") : Except PyErr RenewAction)
        ≠ .error (.mbsFatal msg) := by
  refine ⟨rfl, rfl, fun msg h => ?_⟩
  simp at h

/-- Claim C4 (code_bug): all twelve `del` statements share one
`try/except KeyError`, so the first absent field (here `created_at`)
aborts the remaining deletions: a card that lacks `created_at` but
carries `updated_at` is written with `updated_at` still present, although
`updated_at` is in the managed-field list. -/
theorem C4_later_field_survives :
    write_card [] c4card false "" = .ok (.wrote "1 - x.json" c4card)
    ∧ (delUpTo c4card managedFields).hasKey "updated_at" = true
    ∧ c4card.hasKey "created_at" = false
    ∧ "updated_at" ∈ managedFields :=
  ⟨rfl, rfl, rfl, by decide⟩

/-- After an "Unauthenticated" response with a successful renewal, `_get`
recurses on the remaining script, adding one request. -/
theorem getLoop_cons_unauth (rest : List HttpResp) :
    getLoop (.ok ()) (unauthResp :: rest)
      = ((getLoop (.ok ()) rest).1, (getLoop (.ok ()) rest).2 + 1) := by
  simp [getLoop, unauthResp]

/-- `_get` consumes any number of leading "Unauthenticated" responses,
counting one request for each. -/
theorem getLoop_replicate_unauth (k : Nat) (rest : List HttpResp) :
    getLoop (.ok ()) (List.replicate k unauthResp ++ rest)
      = ((getLoop (.ok ()) rest).1, (getLoop (.ok ()) rest).2 + k) := by
  induction k with
  | zero => simp
  | succ n ih =>
    rw [List.replicate_succ, List.cons_append, getLoop_cons_unauth, ih]
    rw [Nat.add_assoc]

/-- `putLoop` analogue of `getLoop_cons_unauth`. -/
theorem putLoop_cons_unauth (rest : List HttpResp) :
    putLoop (.ok ()) (unauthResp :: rest)
      = ((putLoop (.ok ()) rest).1, (putLoop (.ok ()) rest).2 + 1) := by
  simp [putLoop, unauthResp]

/-- `putLoop` analogue of `getLoop_replicate_unauth`. -/
theorem putLoop_replicate_unauth (k : Nat) (rest : List HttpResp) :
    putLoop (.ok ()) (List.replicate k unauthResp ++ rest)
      = ((putLoop (.ok ()) rest).1, (putLoop (.ok ()) rest).2 + k) := by
  induction k with
  | zero => simp
  | succ n ih =>
    rw [List.replicate_succ, List.cons_append, putLoop_cons_unauth, ih]
    rw [Nat.add_assoc]

/-- Claim C1 (counterexample): the claim caps the attempts for one request
at two ("retry exactly once ... no third attempt"), but on the response
sequence [Unauthenticated, Unauthenticated, 200] the client makes a THIRD
request (and succeeds), because `_get` retries unconditionally after
every re-authentication. -/
theorem C1_third_attempt_occurs :
    getLoop (.ok ()) [unauthResp, unauthResp, ⟨200, "ok", .num 1⟩]
      = (.success (.num 1), 3)
    ∧ ¬ (3 ≤ 2) :=
  ⟨rfl, by decide⟩

/-- Claim C1 (amended): for every non-success response with body exactly
"Unauthenticated", `_get`/`_put` re-authenticate and retry, with NO bound
on the number of retries: k such responses yield k+1 requests, whether
the final response is a success or a fatal non-Unauthenticated failure;
a failure of re-authentication itself propagates after one request. -/
theorem C1_retry_until_non_unauth (k : Nat) (body : Json) (msg : String)
    (hmsg : msg ≠ "Unauthenticated") (e : PyErr) :
    getLoop (.ok ()) (List.replicate k unauthResp ++ [⟨200, "OK", body⟩])
      = (.success body, k + 1)
    ∧ getLoop (.ok ()) (List.replicate k unauthResp ++ [⟨500, msg, .null⟩])
      = (.failure (.mbsFatal ("Error: " ++ msg)), k + 1)
    ∧ getLoop (.error e) [unauthResp] = (.failure e, 1)
    ∧ putLoop (.ok ()) (List.replicate k unauthResp ++ [⟨202, "Accepted", body⟩])
      = (.success body, k + 1)
    ∧ putLoop (.ok ()) (List.replicate k unauthResp ++ [⟨500, msg, .null⟩])
      = (.failure (.mbsFatal ("Error: " ++ msg)), k + 1) := by
  refine ⟨?_, ?_, ?_, ?_, ?_⟩
  · rw [getLoop_replicate_unauth]
    simp [getLoop, Nat.add_comm]
  · rw [getLoop_replicate_unauth]
    simp [getLoop, hmsg, Nat.add_comm]
  · simp [getLoop, unauthResp]
  · rw [putLoop_replicate_unauth]
    simp [putLoop, Nat.add_comm]
  · rw [putLoop_replicate_unauth]
    simp [putLoop, hmsg, Nat.add_comm]

/-- Claim C1 (witness): the amended theorem applied at k = 2 with a
non-Unauthenticated message. -/
theorem C1_retry_until_non_unauth_witness :
    ("boom" ≠ "Unauthenticated")
    ∧ getLoop (.ok ()) (List.replicate 2 unauthResp ++ [⟨200, "OK", Json.null⟩])
      = (.success .null, 3) :=
  ⟨by decide, (C1_retry_until_non_unauth 2 .null "boom" (by decide) .typeError).1⟩

/-- Claim C2 (confirmed): whenever the rendered output lacks the
ownership tag, `render` raises the non-fatal `MbsException` (constructor
`PyErr.mbs`), the push pipeline for that file propagates it, and no PUT
is ever performed for the file, regardless of whether the output would
otherwise be valid. -/
theorem C2_missing_tag_no_put (loads : String → Except JsonDecodeError Json)
    (output : String)
    (h : strContains output mbs_tag = false) :
    render (.ok output) = .error (.mbs tagNotFoundMsg)
    ∧ pushFile loads (.ok output) = .error (.mbs tagNotFoundMsg)
    ∧ ∀ evs : List PushEv, pushFile loads (.ok output) ≠ .ok evs := by
  have hr : render (.ok output) = .error (.mbs tagNotFoundMsg) := by
    simp [render, h]
  have hp : pushFile loads (.ok output) = .error (.mbs tagNotFoundMsg) := by
    simp [pushFile, hr, exc_bind_err]
  exact ⟨hr, hp, fun evs hc => by rw [hp] at hc; cases hc⟩

/-- Claim C2 (witness): the theorem applied to the tagless output "x". -/
theorem C2_missing_tag_no_put_witness :
    (strContains "x" mbs_tag = false)
    ∧ render (.ok "x") = .error (.mbs tagNotFoundMsg) :=
  ⟨rfl, (C2_missing_tag_no_put (fun _ => .ok .null) "x" rfl).1⟩

/-- The field-check part of `check` on a JSON object, written through the
two key-membership tests. -/
theorem checkCard_obj (fs : List (String × Json)) :
    checkCard (.obj fs)
      = ((if (Json.obj fs).hasKey "id" then [] else [errNoId])
          ++ (if (Json.obj fs).hasKey "name" then [] else [errNoName]),
         if !(Json.obj fs).hasKey "id" || !(Json.obj fs).hasKey "name" then
           .error (.mbsFatal "Data invalid.")
         else .ok true) := rfl

/-- `checkCard` never raises the non-fatal "JSON invalid." error: its
error outcomes are the fatal "Data invalid." or a `TypeError`. -/
theorem checkCard_snd_ne_mbs (card : Json) (msg : String) :
    (checkCard card).2 ≠ .error (.mbs msg) := by
  cases card <;> simp [checkCard, pyContains] <;> split <;> simp

/-- `checkCard` never raises an `IndexError` either. -/
theorem checkCard_snd_ne_indexError (card : Json) :
    (checkCard card).2 ≠ .error .indexError := by
  cases card <;> simp [checkCard, pyContains] <;> split <;> simp

/-- The field-check outcomes of `check` on a JSON object: fatal iff a
required field is missing, each missing field logged individually,
success when both are present. -/
theorem checkCard_obj_spec (fs : List (String × Json)) :
    ((checkCard (.obj fs)).2 = .error (.mbsFatal "Data invalid.")
       ↔ ((Json.obj fs).hasKey "id" = false ∨ (Json.obj fs).hasKey "name" = false))
    ∧ ((Json.obj fs).hasKey "id" = false → errNoId ∈ (checkCard (.obj fs)).1)
    ∧ ((Json.obj fs).hasKey "name" = false → errNoName ∈ (checkCard (.obj fs)).1)
    ∧ ((Json.obj fs).hasKey "id" = true → (Json.obj fs).hasKey "name" = true →
        checkCard (.obj fs) = ([], .ok true)) := by
  cases hid : (Json.obj fs).hasKey "id" <;>
    cases hnm : (Json.obj fs).hasKey "name" <;>
      simp [checkCard_obj, hid, hnm]

/-- Claim C3 (counterexample): the real `json.loads` rejects the empty
string with a `JSONDecodeError` at line 1, but `"".splitlines()` has no
lines, so the handler's `data.splitlines()[e.lineno - 1]` raises an
uncaught `IndexError` and the non-fatal "JSON invalid." is never raised
— refuting "raises a non-fatal JSON-invalid error iff string input fails
to parse". -/
theorem C3_decode_crash_on_empty :
    c3loads "" = .error ⟨1, "Expecting value: line 1 column 1 (char 0)"⟩
    ∧ pySplitlines "" = []
    ∧ check c3loads (.inl "")
      = (decodeLogs ⟨1, "Expecting value: line 1 column 1 (char 0)"⟩,
         .error .indexError)
    ∧ ∀ msg, (Except.error PyErr.indexError : Except PyErr Bool)
        ≠ .error (.mbs msg) := by
  refine ⟨rfl, rfl, rfl, fun msg h => ?_⟩
  simp at h

/-- Claim C3 (amended): `check` raises the non-fatal "JSON invalid."
error exactly when the input is a string whose parse fails at a line
number that indexes into the input's lines; a parse failure whose line
number lies beyond the input's lines (empty input, or an error position
past the last newline) raises an uncaught `IndexError` instead; on a
parsed (or directly passed) JSON object it raises the fatal
"Data invalid." exactly when the `id` field or the `name` field is
missing, logging each missing field individually, and returns success
when both are present. -/
theorem C3_check_classification (loads : String → Except JsonDecodeError Json)
    (data : String ⊕ Json) :
    ((check loads data).2 = .error (.mbs "JSON invalid.")
       ↔ ∃ s e, data = .inl s ∧ loads s = .error e
           ∧ (pySplitlines s).get? (e.lineno - 1) ≠ none)
    ∧ ((check loads data).2 = .error .indexError
       ↔ ∃ s e, data = .inl s ∧ loads s = .error e
           ∧ (pySplitlines s).get? (e.lineno - 1) = none)
    ∧ ∀ fs : List (String × Json), parsedCard loads data = some (.obj fs) →
        check loads data = checkCard (.obj fs)
        ∧ ((check loads data).2 = .error (.mbsFatal "Data invalid.")
            ↔ ((Json.obj fs).hasKey "id" = false ∨ (Json.obj fs).hasKey "name" = false))
        ∧ ((Json.obj fs).hasKey "id" = false → errNoId ∈ (check loads data).1)
        ∧ ((Json.obj fs).hasKey "name" = false → errNoName ∈ (check loads data).1)
        ∧ ((Json.obj fs).hasKey "id" = true → (Json.obj fs).hasKey "name" = true →
            check loads data = ([], .ok true)) := by
  cases data with
  | inl s =>
    cases hl : loads s with
    | error e =>
      cases hg : (pySplitlines s).get? (e.lineno - 1) with
      | some line =>
        have hc : check loads (.inl s)
            = (decodeLogs e ++ [.err ("Line with the error > " ++ line)],
               .error (.mbs "JSON invalid.")) := by
          simp only [check, hl, hg]
        refine ⟨?_, ?_, ?_⟩
        · rw [hc]
          refine iff_of_true rfl ⟨s, e, rfl, hl, ?_⟩
          rw [hg]
          exact Option.some_ne_none line
        · rw [hc]
          refine iff_of_false (by simp) ?_
          rintro ⟨s', e', hs', hl', hg'⟩
          cases hs'
          rw [hl] at hl'
          injection hl' with he
          subst he
          rw [hg] at hg'
          cases hg'
        · intro fs hfs
          simp only [parsedCard, hl, Except.toOption] at hfs
          cases hfs
      | none =>
        have hc : check loads (.inl s) = (decodeLogs e, .error .indexError) := by
          simp only [check, hl, hg]
        refine ⟨?_, ?_, ?_⟩
        · rw [hc]
          refine iff_of_false (by simp) ?_
          rintro ⟨s', e', hs', hl', hg'⟩
          cases hs'
          rw [hl] at hl'
          injection hl' with he
          subst he
          rw [hg] at hg'
          exact hg' rfl
        · rw [hc]
          exact iff_of_true rfl ⟨s, e, rfl, hl, hg⟩
        · intro fs hfs
          simp only [parsedCard, hl, Except.toOption] at hfs
          cases hfs
    | ok card =>
      have hc : check loads (.inl s) = checkCard card := by
        simp only [check, hl]
      refine ⟨?_, ?_, ?_⟩
      · rw [hc]
        refine iff_of_false (checkCard_snd_ne_mbs card _) ?_
        rintro ⟨s', e', hs', hl', _⟩
        cases hs'
        rw [hl] at hl'
        cases hl'
      · rw [hc]
        refine iff_of_false (checkCard_snd_ne_indexError card) ?_
        rintro ⟨s', e', hs', hl', _⟩
        cases hs'
        rw [hl] at hl'
        cases hl'
      · intro fs hfs
        simp only [parsedCard, hl, Except.toOption, Option.some.injEq] at hfs
        subst hfs
        rw [hc]
        exact ⟨rfl, checkCard_obj_spec fs⟩
  | inr card =>
    refine ⟨?_, ?_, ?_⟩
    · refine iff_of_false (checkCard_snd_ne_mbs card _) ?_
      rintro ⟨s', e', hs', _, _⟩
      cases hs'
    · refine iff_of_false (checkCard_snd_ne_indexError card) ?_
      rintro ⟨s', e', hs', _, _⟩
      cases hs'
    · intro fs hfs
      simp only [parsedCard, Option.some.injEq] at hfs
      subst hfs
      exact ⟨rfl, checkCard_obj_spec fs⟩

/-- Claim C3 (witness): a dict with both required fields passes. -/
theorem C3_check_classification_witness :
    parsedCard (fun _ => .error ⟨1, "m"⟩)
        (.inr (.obj [("id", .num 1), ("name", .str "x")]))
      = some (.obj [("id", .num 1), ("name", .str "x")])
    ∧ check (fun _ => .error ⟨1, "m"⟩)
        (.inr (.obj [("id", .num 1), ("name", .str "x")]))
      = ([], .ok true) :=
  ⟨rfl,
    ((C3_check_classification (fun _ => .error ⟨1, "m"⟩)
      (.inr (.obj [("id", .num 1), ("name", .str "x")]))).2.2
      [("id", .num 1), ("name", .str "x")] rfl).2.2.2.2 rfl rfl⟩

/-- Claim C5 (counterexample): merging `c5local` into `c5remote` writes
the merged card through `__write_card`, which strips `created_at`; the
written content is therefore NOT identical to the fetched remote card
with only the native query text replaced (`c5expected`). -/
theorem C5_merge_strips_remote_fields :
    merge_file (fun _ => c5remote) true c5local "1 - n.json"
      = .ok [.wrote "1 - n.json" c5written]
    ∧ setNativeQuery c5remote (.str "NEW ## mbs_controlled ##") = .ok c5expected
    ∧ c5written ≠ c5expected
    ∧ c5expected.hasKey "created_at" = true
    ∧ c5written.hasKey "created_at" = false :=
  ⟨rfl, rfl, by decide, rfl, rfl⟩

/-- Claim C5 (amended): with both sides native, merge writes to the given
filename the fetched remote card with the local native query text copied
in AND the server-managed fields stripped by the shared write path (up to
the first absent one); with a non-native local `query_type` it performs
no write and logs the "native only" warning. -/
theorem C5_merge_characterization (lcard remote : Json) (filename : String)
    (idv q merged mid : Json) (nm : String)
    (hfn : filename ≠ "")
    (hhid : pyContains "id" lcard = .ok true)
    (hid : lcard.getItem "id" = .ok idv)
    (hqt : lcard.getItem "query_type" = .ok (.str "native"))
    (hqt₂ : remote.getItem "query_type" = .ok (.str "native"))
    (hq : getNativeQuery lcard = .ok q)
    (hm : setNativeQuery remote q = .ok merged)
    (hmid : merged.getItem "id" = .ok mid)
    (hmname : merged.getItem "name" = .ok (.str nm)) :
    merge_file (fun _ => remote) true lcard filename
      = .ok [.wrote filename (delUpTo merged managedFields)]
    ∧ ∀ (lcard₂ idv₂ qt₂ : Json),
        pyContains "id" lcard₂ = .ok true →
        lcard₂.getItem "id" = .ok idv₂ →
        lcard₂.getItem "query_type" = .ok qt₂ →
        qt₂ ≠ .str "native" →
        merge_file (fun _ => remote) true lcard₂ filename
          = .ok [.warnedNonNative filename] := by
  constructor
  · simp [merge_file, hhid, hid, hqt, hqt₂, hq, hm, hmid, hmname,
      write_card, hfn, exc_bind_ok, exc_pure]
  · intro lcard₂ idv₂ qt₂ hhid₂ hid₂ hqt₃ hne
    simp [merge_file, hhid₂, hid₂, hqt₃, hne, exc_bind_ok, exc_pure]

/-- Claim C5 (witness): the amended theorem applied to the concrete
`c5local`/`c5remote` pair. -/
theorem C5_merge_characterization_witness :
    ("1 - n.json" ≠ "")
    ∧ merge_file (fun _ => c5remote) true c5local "1 - n.json"
      = .ok [.wrote "1 - n.json" (delUpTo c5expected managedFields)] :=
  ⟨by decide,
    (C5_merge_characterization c5local c5remote "1 - n.json" (.num 1)
      (.str "NEW ## mbs_controlled ##") c5expected (.num 1) "n"
      (by decide) rfl rfl rfl rfl rfl rfl rfl rfl).1⟩

/-- A card whose id is among the collected local ids is skipped with the
info-level log and no state change. -/
theorem pullStep_skip (ids : List Json) (ow : Bool) (evs : List PullEv)
    (names : List String) (card i : Json)
    (h1 : card.getItem "id" = .ok i)
    (h2 : ids.any (fun x => Json.beq x i) = true) :
    pullStep ids ow (evs, names) card = .ok (evs ++ [.skippedInfo i], names) := by
  simp only [pullStep, h1, exc_bind_ok]
  rw [if_pos h2]
  rfl

/-- Folding `pullStep` over cards whose ids are all collected locally
yields only info-level skip events and leaves the filename state
unchanged. -/
theorem pullStep_fold_skips (ids : List Json) (ow : Bool) (cards : List Json)
    (h : ∀ c ∈ cards, ∃ i, c.getItem "id" = .ok i
        ∧ ids.any (fun x => Json.beq x i) = true) :
    ∀ (evs₀ : List PullEv) (names : List String),
      ∃ evs', cards.foldlM (pullStep ids ow) (evs₀, names) = .ok (evs₀ ++ evs', names)
        ∧ ∀ ev ∈ evs', ∃ i, ev = PullEv.skippedInfo i := by
  induction cards with
  | nil =>
    intro evs₀ names
    exact ⟨[], by rw [List.foldlM_nil, List.append_nil]; rfl, by simp⟩
  | cons c cs ih =>
    intro evs₀ names
    obtain ⟨i, h1, h2⟩ := h c (by simp)
    obtain ⟨evs', hfold, hall⟩ :=
      ih (fun x hx => h x (by simp [hx])) (evs₀ ++ [.skippedInfo i]) names
    refine ⟨[.skippedInfo i] ++ evs', ?_, ?_⟩
    · rw [List.foldlM_cons, pullStep_skip ids ow evs₀ names c i h1 h2,
        exc_bind_ok, hfold, List.append_assoc]
    · intro ev hmem
      rcases List.mem_append.mp hmem with hmem | hmem
      · rcases List.mem_singleton.mp hmem with rfl
        exact ⟨i, rfl⟩
      · exact hall ev hmem

/-- Claim C6 (counterexample): the remote card with id 5 is already
present in a local file (under the name "renamed.json"), yet a
single-card pull without overwrite performs a write, because the
single-card branch never consults the collected ids. -/
theorem C6_single_card_pull_duplicates :
    existing_ids c6files = .ok [.num 5]
    ∧ pull (fun _ => c6card) c6files 5 false = .ok [.wrote "5 - T.json" c6card]
    ∧ "5 - T.json" ∉ c6files.map Prod.fst :=
  ⟨rfl, rfl, by decide⟩

/-- Claim C6 (amended): in a FULL-LIST pull without overwrite, a remote
card whose id was collected from a local file is skipped with an
info-level (not warning-level) log and nothing is written; a card whose
id is not collected but whose target filename exists is skipped with the
warning-level log and nothing is written; in a single-card pull only an
existing target filename prevents the write (warning-level log), the
collected ids are ignored. -/
theorem C6_pull_idempotent_amended (files : List (String × Json)) (ids : List Json)
    (hids : existing_ids files = .ok ids) :
    (∀ cards : List Json,
      (∀ c ∈ cards, ∃ i, c.getItem "id" = .ok i
          ∧ ids.any (fun x => Json.beq x i) = true) →
      ∃ evs, pull (fun _ => .arr cards) files 0 false = .ok evs
        ∧ ∀ ev ∈ evs, ∃ i, ev = PullEv.skippedInfo i)
    ∧ (∀ (card i : Json) (nm : String),
        card.getItem "id" = .ok i →
        ids.any (fun x => Json.beq x i) = false →
        tagCond card = .ok true →
        card.getItem "name" = .ok (.str nm) →
        (files.map Prod.fst).contains (targetFilename i nm) = true →
        pull (fun _ => .arr [card]) files 0 false
          = .ok [.warnedExists (targetFilename i nm)])
    ∧ (∀ (card i : Json) (nm : String) (cid : Int),
        cid ≠ 0 →
        card.getItem "id" = .ok i →
        card.getItem "name" = .ok (.str nm) →
        (files.map Prod.fst).contains (targetFilename i nm) = true →
        pull (fun _ => card) files cid false
          = .ok [.warnedExists (targetFilename i nm)]) := by
  refine ⟨?_, ?_, ?_⟩
  · intro cards h
    obtain ⟨evs', hfold, hall⟩ :=
      pullStep_fold_skips ids false cards h [] (files.map Prod.fst)
    refine ⟨evs', ?_, hall⟩
    simp [pull, hids, hfold, exc_bind_ok, exc_pure]
  · intro card i nm h1 h2 h3 h4 h5
    have h2' : ¬ ∃ x, x ∈ ids ∧ Json.beq x i = true := by
      rw [← List.any_eq_true, h2]
      exact Bool.false_ne_true
    have hcond : ¬ (¬ (List.map Prod.fst files).contains (targetFilename i nm) = true
        ∨ false = true) := by
      rw [h5]
      simp
    have hw : write_card (List.map Prod.fst files) card false ""
        = .ok (.warnedExists (targetFilename i nm)) := by
      simp only [write_card, h1, h4, exc_bind_ok, exc_pure, eq_self_iff_true, if_true]
      rw [if_neg hcond]
    simp [pull, hids, List.foldlM_cons, List.foldlM_nil, pullStep, h1, h2', h3,
      hw, exc_bind_ok, exc_pure]
  · intro card i nm cid hcid h1 h2 h3
    have hcond : ¬ (¬ (List.map Prod.fst files).contains (targetFilename i nm) = true
        ∨ false = true) := by
      rw [h3]
      simp
    have hw : write_card (List.map Prod.fst files) card false ""
        = .ok (.warnedExists (targetFilename i nm)) := by
      simp only [write_card, h1, h2, exc_bind_ok, exc_pure, eq_self_iff_true, if_true]
      rw [if_neg hcond]
    simp [pull, hids, hcid, hw, exc_bind_ok, exc_pure]

/-- Claim C6 (witness): the amended theorem's full-list part applied to
the local tree holding id 5 and the server returning that single card. -/
theorem C6_pull_idempotent_amended_witness :
    existing_ids c6files = .ok [Json.num 5]
    ∧ ∃ evs, pull (fun _ => .arr [c6card]) c6files 0 false = .ok evs
        ∧ ∀ ev ∈ evs, ∃ i, ev = PullEv.skippedInfo i := by
  refine ⟨rfl, ?_⟩
  refine (C6_pull_idempotent_amended c6files [.num 5] rfl).1 [c6card] ?_
  intro c hc
  rcases List.mem_singleton.mp hc with rfl
  exact ⟨.num 5, rfl, rfl⟩

/-- Claim C9 (counterexample): a server card without the `dataset_query`
field makes the per-card ownership-tag check raise `KeyError`, aborting
the whole full-list pull, instead of completing without error. -/
theorem C9_missing_dataset_query_keyerror :
    tagCond c9card = .error (.keyError "dataset_query")
    ∧ pull (fun _ => .arr [c9card]) [] 0 false = .error (.keyError "dataset_query")
    ∧ c9card.hasKey "dataset_query" = false :=
  ⟨rfl, rfl, rfl⟩

/-- Claim C9 (amended): the tag check tolerates a missing `native`
sub-query (falling through to the description test), but a card whose
`dataset_query` key is absent raises `KeyError`; and a card is written by
the full-list loop only when the tag condition evaluated to true. -/
theorem C9_tag_check_amended :
    (∀ (card dq : Json) (d : String),
      card.getItem "dataset_query" = .ok dq →
      pyContains "native" dq = .ok false →
      card.getItem "description" = .ok (.str d) →
      tagCond card = .ok (strContains d mbs_tag))
    ∧ (∀ fs : List (String × Json),
      (Json.obj fs).hasKey "dataset_query" = false →
      tagCond (.obj fs) = .error (.keyError "dataset_query"))
    ∧ (∀ (ids : List Json) (ow : Bool) (evs : List PullEv) (names : List String)
        (card : Json) (res : List PullEv × List String),
      pullStep ids ow (evs, names) card = .ok res →
      ∀ fn c, PullEv.wrote fn c ∈ res.1 →
        PullEv.wrote fn c ∈ evs ∨ tagCond card = .ok true) := by
  refine ⟨?_, ?_, ?_⟩
  · intro card dq d hdq hn hdesc
    simp [tagCond, hdq, hn, hdesc, exc_bind_ok, exc_pure]
  · intro fs h
    have h' := getItem_obj_of_not_hasKey (k := "dataset_query") h
    simp [tagCond, h', exc_bind_err]
  · intro ids ow evs names card res hstep fn c hmem
    simp only [pullStep] at hstep
    cases h1 : card.getItem "id" with
    | error e =>
      rw [h1, exc_bind_err] at hstep
      cases hstep
    | ok i =>
      rw [h1, exc_bind_ok] at hstep
      by_cases h2 : (ids.any fun x => Json.beq x i) = true
      · rw [if_pos h2, exc_pure] at hstep
        injection hstep with h
        subst h
        rcases List.mem_append.mp hmem with h | h
        · exact Or.inl h
        · rcases List.mem_singleton.mp h with h'
          simp at h'
      · rw [if_neg h2] at hstep
        cases h3 : tagCond card with
        | error e =>
          rw [h3, exc_bind_err] at hstep
          cases hstep
        | ok b =>
          rw [h3, exc_bind_ok] at hstep
          cases b with
          | true => exact Or.inr rfl
          | false =>
            rw [if_neg (by simp)] at hstep
            rw [exc_pure] at hstep
            injection hstep with h
            subst h
            exact Or.inl hmem

/-- Claim C9 (witness): the amended theorem's first part applied to a
card whose `dataset_query` has no `native` sub-query. -/
theorem C9_tag_check_amended_witness :
    ((Json.obj [("dataset_query", Json.obj []), ("description", Json.str "x")]).getItem
        "dataset_query" = .ok (.obj []))
    ∧ tagCond (.obj [("dataset_query", .obj []), ("description", .str "x")])
      = .ok (strContains "x" mbs_tag) :=
  ⟨rfl,
    C9_tag_check_amended.1 (.obj [("dataset_query", .obj []), ("description", .str "x")])
      (.obj []) "x" rfl rfl rfl⟩

/-- Claim C10 (confirmed): a local file whose JSON object has an `id` key
but no `query_type` key makes `__merge_file` raise an uncaught `KeyError`
— neither the recoverable `MbsException` nor the fatal
`MbsFatalException` — and a batch merge starting at that file aborts
without processing the remaining files. -/
theorem C10_merge_keyerror_aborts (server : String → Json)
    (rest : List (String × Json)) (fields : List (String × Json))
    (idv : Json) (fname : String)
    (hid : (Json.obj fields).getItem "id" = .ok idv)
    (hqt : (Json.obj fields).hasKey "query_type" = false) :
    merge_file server true (.obj fields) fname = .error (.keyError "query_type")
    ∧ (∀ msg, PyErr.keyError "query_type" ≠ .mbs msg
        ∧ PyErr.keyError "query_type" ≠ .mbsFatal msg)
    ∧ merge server ((fname, .obj fields) :: rest) = .error (.keyError "query_type") := by
  have hk : (Json.obj fields).hasKey "id" = true := hasKey_obj_of_getItem hid
  have hqt' := getItem_obj_of_not_hasKey (k := "query_type") hqt
  have hmf : merge_file server true (.obj fields) fname
      = .error (.keyError "query_type") := by
    simp [merge_file, pyContains, hk, hid, hqt', exc_bind_ok, exc_bind_err]
  refine ⟨hmf, fun msg => ⟨by simp, by simp⟩, ?_⟩
  simp [merge, List.foldlM_cons, hmf, exc_bind_err]

/-- Claim C10 (witness): the theorem applied to a concrete two-file
batch whose first file has an id but no query_type. -/
theorem C10_merge_keyerror_aborts_witness :
    merge (fun _ => c5remote) [("f.json", .obj [("id", .num 1)]), ("g.json", c5remote)]
      = .error (.keyError "query_type") :=
  (C10_merge_keyerror_aborts (fun _ => c5remote) [("g.json", c5remote)]
    [("id", .num 1)] (.num 1) "f.json" rfl rfl).2.2

end Mbs
